import Mathlib

/-!
Verification of the nano-banana-cli specification against `src/main.rs`.

The program is a single-file Rust CLI: it parses a subcommand (`text` or
`image`), resolves an API key, builds a JSON request, performs one HTTPS
POST, and handles the JSON response (printing text, or base64-decoding and
writing an image file).  This development gives a shallow embedding of the
pure parts of that pipeline: the request builders and their JSON
serialization (serde derives), the response data model (serde
deserialization target), the response handlers of `generate_text` and
`generate_image` with their effects reified into outcome values, the
credential resolver with the external `mull` subprocess reified into an
outcome datum, and the image-model selector.
-/

namespace NanoBanana

/-! ### Response data model (deserialization structs in `src/main.rs`) -/

/-- Struct `InlineData`: base64 payload with its mime type
(`mimeType`/`data` fields of a response part's `inlineData`). -/
structure InlineData where
  mimeType : String
  data : String

deriving instance DecidableEq for InlineData

/-- Struct `ResponsePart`: both fields use `#[serde(default)]`, so each is
an independent `Option`. -/
structure ResponsePart where
  text : Option String
  inlineData : Option InlineData

deriving instance DecidableEq for ResponsePart

/-- Struct `CandidateContent`. -/
structure CandidateContent where
  parts : List ResponsePart

deriving instance DecidableEq for CandidateContent

/-- Struct `Candidate`. -/
structure Candidate where
  content : CandidateContent

deriving instance DecidableEq for Candidate

/-- Struct `Response`. -/
structure Response where
  candidates : List Candidate

deriving instance DecidableEq for Response

/-! ### Base64 (the `base64` crate's `BASE64_STANDARD.decode`)

The standard alphabet with mandatory canonical padding: input length must
be a multiple of 4, `=` may appear only as the final one or two symbols,
and the unused low bits of the final symbol must be zero (the engine's
default `decode_allow_trailing_bits = false`). -/

/-- Value of one symbol of the standard base64 alphabet; `none` for any
other character (including `=`, which is handled as padding separately). -/
def b64Val (c : Char) : Option Nat :=
  if 'A' ≤ c ∧ c ≤ 'Z' then some (c.toNat - 65)
  else if 'a' ≤ c ∧ c ≤ 'z' then some (c.toNat - 71)
  else if '0' ≤ c ∧ c ≤ '9' then some (c.toNat + 4)
  else if c = '+' then some 62
  else if c = '/' then some 63
  else none

/-- Decode one 4-symbol block.  `isLast` tells whether this is the final
block of the input; padding is legal only there. -/
def decodeBlock4 (a b c d : Char) (isLast : Bool) : Option (List Nat) :=
  match b64Val a, b64Val b with
  | some va, some vb =>
    if c = '=' then
      if isLast ∧ d = '=' ∧ vb % 16 = 0 then
        some [va * 4 + vb / 16]
      else none
    else
      match b64Val c with
      | some vc =>
        if d = '=' then
          if isLast ∧ vc % 4 = 0 then
            some [va * 4 + vb / 16, (vb % 16) * 16 + vc / 4]
          else none
        else
          match b64Val d with
          | some vd =>
            some [va * 4 + vb / 16, (vb % 16) * 16 + vc / 4, (vc % 4) * 64 + vd]
          | none => none
      | none => none
  | _, _ => none

/-- Decode a character list block by block; anything that is not a whole
number of 4-symbol blocks is rejected. -/
def decodeChunks : List Char → Option (List Nat)
  | [] => some []
  | a :: b :: c :: d :: rest =>
    match decodeBlock4 a b c d rest.isEmpty with
    | some bytes =>
      match decodeChunks rest with
      | some more => some (bytes ++ more)
      | none => none
    | none => none
  | _ => none

/-- `BASE64_STANDARD.decode` on a string, as a byte list (each byte a
`Nat < 256`); `none` models a `DecodeError`. -/
def base64Decode (s : String) : Option (List Nat) :=
  decodeChunks s.data

/-! ### Response handlers -/

/-- Effect of the text path of `generate_text` after deserialization:
`some t` means the program printed `t` followed by a newline and returned
`Ok(())`; `none` means it printed nothing and still returned `Ok(())`
(both cases exit with success). -/
def generate_text (r : Response) : Option String :=
  match r.candidates.head? with
  | some candidate =>
    match candidate.content.parts.head? with
    | some part => part.text
    | none => none
  | none => none

/-- Effect of the image path of `generate_image` after deserialization.
`written bytes mime` means `fs::write(output, bytes)` ran (creating or
truncating the output file to exactly `bytes`) and the program printed the
output path and `mime`, then returned `Ok(())`.  `decodeFailed` means the
base64 decode of the chosen part errored (`DecodeError` propagated by
`?`), before any write.  `noImageData` is the
`Err("No image data in response")` return, also before any write. -/
inductive ImageOutcome where
  | written : List Nat → String → ImageOutcome
  | decodeFailed : ImageOutcome
  | noImageData : ImageOutcome

deriving instance DecidableEq for ImageOutcome

/-- Inner loop of `generate_image`: scan the parts of one candidate; the
first part whose `inline_data` is present is committed to (decode may then
fail); `none` means the loop fell through. -/
def scanParts : List ResponsePart → Option ImageOutcome
  | [] => none
  | part :: rest =>
    match part.inlineData with
    | some inline_data =>
      match base64Decode inline_data.data with
      | some image_data => some (.written image_data inline_data.mimeType)
      | none => some .decodeFailed
    | none => scanParts rest

/-- Outer loop of `generate_image`: scan candidates in order. -/
def scanCandidates : List Candidate → Option ImageOutcome
  | [] => none
  | candidate :: rest =>
    match scanParts candidate.content.parts with
    | some outcome => some outcome
    | none => scanCandidates rest

/-- The image response handler of `generate_image`: the double `for` loop
with early return, falling through to `Err("No image data in response")`. -/
def generate_image (r : Response) : ImageOutcome :=
  match scanCandidates r.candidates with
  | some outcome => outcome
  | none => .noImageData

/-- The outcome `generate_image` produces once a part with inline data has
been selected: decode its base64 `data`; on success the decoded bytes are
written and its `mimeType` reported, on failure the decode error aborts. -/
def decodeOutcome (d : InlineData) : ImageOutcome :=
  match base64Decode d.data with
  | some bytes => .written bytes d.mimeType
  | none => .decodeFailed

/-- The first part carrying an `inlineData` field, scanning candidates in
order and parts within each candidate in order (the spec's "first matching
part in the response"). -/
def firstInlineData (r : Response) : Option InlineData :=
  r.candidates.findSome? fun c => c.content.parts.findSome? fun p => p.inlineData

/-! ### Request data model (serialization structs in `src/main.rs`) -/

/-- Struct `Part` (request side): a single `text` field. -/
structure Part where
  text : String

/-- Struct `Content`: a list of parts. -/
structure Content where
  parts : List Part

/-- Struct `TextRequest`: just `contents`. -/
structure TextRequest where
  contents : List Content

/-- Struct `ImageGenerationConfig`: serialized under the serde rename
`responseModalities`. -/
structure ImageGenerationConfig where
  response_modalities : List String

/-- Struct `ImageRequest`: `contents` plus `generation_config`, the latter
serialized under the serde rename `generationConfig`. -/
structure ImageRequest where
  contents : List Content
  generation_config : ImageGenerationConfig

/-- JSON values, as far as the requests of this program need them. -/
inductive Json where
  | str : String → Json
  | arr : List Json → Json
  | obj : List (String × Json) → Json

/-- serde serialization of `Part`. -/
def Part.toJson (p : Part) : Json :=
  .obj [("text", .str p.text)]

/-- serde serialization of `Content`. -/
def Content.toJson (c : Content) : Json :=
  .obj [("parts", .arr (c.parts.map Part.toJson))]

/-- serde serialization of `TextRequest`. -/
def TextRequest.toJson (r : TextRequest) : Json :=
  .obj [("contents", .arr (r.contents.map Content.toJson))]

/-- serde serialization of `ImageGenerationConfig` (field renamed to
`responseModalities`). -/
def ImageGenerationConfig.toJson (g : ImageGenerationConfig) : Json :=
  .obj [("responseModalities", .arr (g.response_modalities.map Json.str))]

/-- serde serialization of `ImageRequest` (second field renamed to
`generationConfig`). -/
def ImageRequest.toJson (r : ImageRequest) : Json :=
  .obj [("contents", .arr (r.contents.map Content.toJson)),
        ("generationConfig", r.generation_config.toJson)]

/-- The request value `generate_text` builds: one content block, one part,
the raw prompt as the text. -/
def buildTextRequest (prompt : String) : TextRequest :=
  { contents := [{ parts := [{ text := prompt }] }] }

/-- The request value `generate_image` builds: the same single
content/part structure, plus the generation config requesting the
`"TEXT"` and `"IMAGE"` modalities in that order. -/
def buildImageRequest (prompt : String) : ImageRequest :=
  { contents := [{ parts := [{ text := prompt }] }],
    generation_config := { response_modalities := ["TEXT", "IMAGE"] } }

/-! ### Credential resolution -/

/-- Outcome of attempting to run the external command
`mull secrets get google-ai-studio`.  `launchFailure e` models
`Command::output()` returning `Err` with description `e` (the process
could not be started); `ran success stdout stderr` models a completed
process with exit status `success` and the two captured streams. -/
inductive CmdOutcome where
  | launchFailure : String → CmdOutcome
  | ran : Bool → String → String → CmdOutcome

/-- Rust `str::trim`: drop leading and trailing whitespace characters. -/
def rustTrim (s : String) : String :=
  ⟨((s.data.dropWhile Char.isWhitespace).reverse.dropWhile Char.isWhitespace).reverse⟩

/-- `api_key_from_mull`, with the subprocess reified as a `CmdOutcome`:
launch failure yields `Err("Failed to run mull: {e}")`; a non-zero exit
yields `Err("mull secrets failed: {stderr}")`; success yields the trimmed
stdout. -/
def api_key_from_mull : CmdOutcome → Except String String
  | .launchFailure e => .error ("Failed to run mull: " ++ e)
  | .ran success stdout stderr =>
    if success then .ok (rustTrim stdout)
    else .error ("mull secrets failed: " ++ stderr)

/-- `resolve_api_key`: the explicit key (clap already merged the `--api-key`
flag and the `GOOGLE_AI_STUDIO_API_KEY` environment variable into
`cli_api_key`) wins; otherwise fall back to `api_key_from_mull`. -/
def resolve_api_key (cli_api_key : Option String) (mull : CmdOutcome) :
    Except String String :=
  match cli_api_key with
  | some key => .ok key
  | none => api_key_from_mull mull

/-! ### Image model selector -/

/-- Enum `ImageModel`: exactly two variants. -/
inductive ImageModel where
  | nanoBanana2
  | nanoBanana1

deriving instance DecidableEq for ImageModel

/-- `ImageModel::api_name`. -/
def ImageModel.api_name : ImageModel → String
  | .nanoBanana2 => "gemini-3.1-flash-image-preview"
  | .nanoBanana1 => "gemini-2.0-flash-exp-image-generation"

/-- Word-scanning state of heck's `transform` loop: whether the previous
cased character of the current word was lowercase or uppercase, or neither
has been seen yet. -/
inductive WordMode where
  | boundary
  | lower
  | upper

deriving instance DecidableEq for WordMode

/-- Word splitting of one alphanumeric segment, following heck's
`transform` loop exactly: a boundary falls after a lowercase character
followed by an uppercase one, and before an uppercase character that is
preceded by an uppercase one and followed by a lowercase one; digits are
uncased and leave the mode unchanged.  `mode` is the mode of the previous
character of the current word, `cur` the characters of the current word
collected so far.  (ASCII case predicates: the identifiers fed to it here
are ASCII.) -/
def heckSplit (mode : WordMode) (cur : List Char) : List Char → List (List Char)
  | [] => if cur.isEmpty then [] else [cur]
  | [c] => [cur ++ [c]]
  | c :: next :: rest =>
    let nextMode : WordMode :=
      if c.isLower then .lower
      else if c.isUpper then .upper
      else mode
    if nextMode = WordMode.lower ∧ next.isUpper then
      (cur ++ [c]) :: heckSplit .boundary [] (next :: rest)
    else if mode = WordMode.upper ∧ c.isUpper ∧ next.isLower then
      cur :: heckSplit .boundary [c] (next :: rest)
    else
      heckSplit nextMode (cur ++ [c]) (next :: rest)

/-- Words of a string under heck: split on non-alphanumeric characters,
then split each segment at case boundaries. -/
def heckWords (s : String) : List (List Char) :=
  ((s.data.splitOnP fun c => !c.isAlphanum).map (heckSplit .boundary [])).flatten

/-- Interleave the words with `-`. -/
def joinDash : List (List Char) → List Char
  | [] => []
  | [w] => w
  | w :: ws => w ++ '-' :: joinDash ws

/-- heck's kebab-case (`AsKebabCase`): the words of the input, lowercased,
joined by hyphens.  This is what clap_derive uses to render a `ValueEnum`
variant identifier into its possible value. -/
def kebabCase (s : String) : String :=
  ⟨joinDash ((heckWords s).map fun w => w.map Char.toLower)⟩

/-- Variant identifiers of enum `ImageModel` as written in the source. -/
def ImageModel.variantName : ImageModel → String
  | .nanoBanana2 => "NanoBanana2"
  | .nanoBanana1 => "NanoBanana1"

/-- Possible value clap derives for a variant (no rename attributes in the
source, so it is the kebab-cased identifier). -/
def ImageModel.possibleValue (m : ImageModel) : String :=
  kebabCase m.variantName

/-- clap's `ValueEnum` parsing of a `--model` value: exact match against a
variant's rendered possible value (no aliases, no `ignore_case` in the
source). -/
def ImageModel.fromStr (s : String) : Option ImageModel :=
  if s = ImageModel.possibleValue .nanoBanana2 then some .nanoBanana2
  else if s = ImageModel.possibleValue .nanoBanana1 then some .nanoBanana1
  else none

/-- The selection made when no `--model` flag is given: clap feeds the
literal `default_value = "nano-banana-2"` through the same `ValueEnum`
parser; `none` means the invocation fails at argument parsing. -/
def defaultModelSelection : Option ImageModel :=
  ImageModel.fromStr "nano-banana-2"

/-! ### Concrete responses used to instantiate the theorems -/

/-- A response whose single part carries only text. -/
def respTextOnly : Response :=
  { candidates := [{ content := { parts := [{ text := some "hi", inlineData := none }] } }] }

/-- A PNG payload: `"iVBORw0KGgo="` decodes to the 8 PNG signature bytes. -/
def pngInline : InlineData :=
  { mimeType := "image/png", data := "iVBORw0KGgo=" }

/-- An inline-data part whose `data` is not valid base64. -/
def badInline : InlineData :=
  { mimeType := "image/png", data := "!!!" }

/-- A response whose only inline-data part is `pngInline`. -/
def respPng : Response :=
  { candidates := [{ content := { parts := [{ text := none, inlineData := some pngInline }] } }] }

/-- A response whose first inline-data part (second part of the first
candidate) has invalid base64, while a later candidate carries valid
inline data. -/
def respBadThenGood : Response :=
  { candidates :=
      [{ content := { parts :=
          [{ text := some "x", inlineData := none },
           { text := none, inlineData := some badInline }] } },
       { content := { parts := [{ text := none, inlineData := some pngInline }] } }] }

end NanoBanana

namespace NanoBanana

/-! ### Helper lemmas -/

/-- The part scan commits to the first part whose `inlineData` is present. -/
theorem scanParts_eq_findSome (ps : List ResponsePart) :
    scanParts ps = (ps.findSome? fun p => p.inlineData).map decodeOutcome := by
  induction ps with
  | nil => rfl
  | cons p rest ih =>
    rw [scanParts, List.findSome?_cons]
    cases h : p.inlineData with
    | some d =>
      cases hb : base64Decode d.data <;> simp [h, hb, decodeOutcome]
    | none => simp [h, ih]

/-- The candidate scan commits to the first candidate containing an
inline-data part. -/
theorem scanCandidates_eq_findSome (cs : List Candidate) :
    scanCandidates cs =
      (cs.findSome? fun c => c.content.parts.findSome? fun p => p.inlineData).map
        decodeOutcome := by
  induction cs with
  | nil => rfl
  | cons c rest ih =>
    rw [scanCandidates, scanParts_eq_findSome, List.findSome?_cons]
    cases h : c.content.parts.findSome? fun p => p.inlineData with
    | some d => simp [h]
    | none => simp [h, ih]

/-- Validation of the kebab-case model against heck's own ASCII test
vectors (the two non-ASCII vectors aside, which no identifier here uses):
the model reproduces every one of them. -/
theorem kebabCase_matches_heck_vectors :
    kebabCase "CamelCase" = "camel-case"
    ∧ kebabCase "This is Human case." = "this-is-human-case"
    ∧ kebabCase "MixedUP CamelCase, with some Spaces" = "mixed-up-camel-case-with-some-spaces"
    ∧ kebabCase "mixed_up_ snake_case with some _spaces" = "mixed-up-snake-case-with-some-spaces"
    ∧ kebabCase "SHOUTY_SNAKE_CASE" = "shouty-snake-case"
    ∧ kebabCase "snake_case" = "snake-case"
    ∧ kebabCase "this-contains_ ALLKinds OfWord_Boundaries"
        = "this-contains-all-kinds-of-word-boundaries"
    ∧ kebabCase "XMLHttpRequest" = "xml-http-request"
    ∧ kebabCase "FIELD_NAME11" = "field-name11"
    ∧ kebabCase "99BOTTLES" = "99bottles"
    ∧ kebabCase "FieldNamE11" = "field-nam-e11"
    ∧ kebabCase "abc123def456" = "abc123def456" := by
  refine ⟨?_, ?_, ?_, ?_, ?_, ?_, ?_, ?_, ?_, ?_, ?_, ?_⟩ <;> decide

/-- The image handler is fully determined by the first inline-data part. -/
theorem generate_image_eq (r : Response) :
    generate_image r =
      match firstInlineData r with
      | some d => decodeOutcome d
      | none => ImageOutcome.noImageData := by
  rw [generate_image, scanCandidates_eq_findSome]
  cases h : firstInlineData r with
  | some d => rw [firstInlineData] at h; simp [h]
  | none => rw [firstInlineData] at h; simp [h]

end NanoBanana

namespace NanoBanana

/-! ### Claim theorems -/

/-- C1: for every response, the output artifact is derived strictly from
the first candidate (text mode: the first candidate's first part's text)
and the first matching part (image mode: the first inline-data part in
candidate order, then part order); later candidates and later parts
contribute nothing to either output. -/
theorem first_match_determines_output (r : Response) :
    generate_text r =
      ((r.candidates.head?.bind fun c => c.content.parts.head?).bind fun p => p.text)
    ∧ generate_image r =
      (match firstInlineData r with
       | some d => decodeOutcome d
       | none => ImageOutcome.noImageData) := by
  constructor
  · rcases r with ⟨cs⟩
    cases cs with
    | nil => rfl
    | cons c rest =>
      rcases c with ⟨⟨ps⟩⟩
      cases ps <;> rfl
  · exact generate_image_eq r

/-- C2: in image mode, a response in which no part of any candidate
carries an inline-data field makes the handler return the
`No image data in response` error; no file is written (the `written`
outcome never arises). -/
theorem no_inline_data_no_image (r : Response)
    (h : ∀ c ∈ r.candidates, ∀ p ∈ c.content.parts, p.inlineData = none) :
    generate_image r = ImageOutcome.noImageData := by
  have hfirst : firstInlineData r = none := by
    rw [firstInlineData, List.findSome?_eq_none_iff]
    intro c hc
    rw [List.findSome?_eq_none_iff]
    exact h c hc
  rw [generate_image_eq, hfirst]

/-- C2 witness at a concrete text-only response. -/
theorem no_inline_data_no_image_witness :
    (∀ c ∈ respTextOnly.candidates, ∀ p ∈ c.content.parts, p.inlineData = none)
    ∧ generate_image respTextOnly = ImageOutcome.noImageData :=
  ⟨by decide, no_inline_data_no_image respTextOnly (by decide)⟩

/-- C3: in image mode, when the first inline-data part (scanning
candidates in order and parts within each candidate in order) holds valid
base64, the handler writes exactly the decoded bytes to the output path
(`fs::write`, creating or truncating the file) and prints the path and
that part's reported mime type. -/
theorem first_inline_valid_written (r : Response) (d : InlineData) (bytes : List Nat)
    (h1 : firstInlineData r = some d) (h2 : base64Decode d.data = some bytes) :
    generate_image r = ImageOutcome.written bytes d.mimeType := by
  rw [generate_image_eq, h1]
  simp [decodeOutcome, h2]

/-- C3 witness at a concrete response holding the PNG signature. -/
theorem first_inline_valid_written_witness :
    firstInlineData respPng = some pngInline
    ∧ base64Decode pngInline.data = some [137, 80, 78, 71, 13, 10, 26, 10]
    ∧ generate_image respPng =
        ImageOutcome.written [137, 80, 78, 71, 13, 10, 26, 10] pngInline.mimeType :=
  ⟨by decide, by decide,
    first_inline_valid_written respPng pngInline [137, 80, 78, 71, 13, 10, 26, 10]
      (by decide) (by decide)⟩

/-- C4: in text mode the handler looks only at the first candidate's first
part: a present text field is printed (followed by a newline, per
`println!`); with no candidates, no parts, or a textless first part
nothing is printed, and in every case the handler returns success. -/
theorem text_mode_first_part (r : Response) :
    generate_text r =
      match r.candidates with
      | [] => none
      | c :: _ =>
        match c.content.parts with
        | [] => none
        | p :: _ => p.text := by
  rcases r with ⟨cs⟩
  cases cs with
  | nil => rfl
  | cons c rest =>
    rcases c with ⟨⟨ps⟩⟩
    cases ps <;> rfl

/-- C5: the serialized text-mode request body is exactly
`{"contents":[{"parts":[{"text": prompt}]}]}`: one content block, one
part, the raw prompt, no other keys. -/
theorem text_request_serialization (prompt : String) :
    (buildTextRequest prompt).toJson =
      Json.obj [("contents", Json.arr
        [Json.obj [("parts", Json.arr
          [Json.obj [("text", Json.str prompt)]])]])] :=
  rfl

/-- C6: the serialized image-mode request body holds the same single
content/part structure with the raw prompt, plus
`"generationConfig":{"responseModalities":["TEXT","IMAGE"]}` with the two
modality strings in that order. -/
theorem image_request_serialization (prompt : String) :
    (buildImageRequest prompt).toJson =
      Json.obj [("contents", Json.arr
        [Json.obj [("parts", Json.arr
          [Json.obj [("text", Json.str prompt)]])]]),
        ("generationConfig", Json.obj
          [("responseModalities", Json.arr [Json.str "TEXT", Json.str "IMAGE"])])] :=
  rfl

/-- C7: credential resolution order: an explicit key is returned unchanged
whatever the external command would do (the lookup result is irrelevant,
i.e. never consulted); otherwise a successful `mull` run yields its
trimmed stdout, a non-zero exit yields an error whose message contains the
command's stderr text, and a launch failure yields an error naming the
launch error. -/
theorem credential_resolution_order :
    (∀ (key : String) (mull : CmdOutcome), resolve_api_key (some key) mull = Except.ok key)
    ∧ (∀ stdout stderr : String,
        resolve_api_key none (CmdOutcome.ran true stdout stderr) =
          Except.ok (rustTrim stdout))
    ∧ (∀ stdout stderr : String, ∃ pre : String,
        resolve_api_key none (CmdOutcome.ran false stdout stderr) =
          Except.error (pre ++ stderr))
    ∧ (∀ e : String,
        resolve_api_key none (CmdOutcome.launchFailure e) =
          Except.error ("Failed to run mull: " ++ e)) :=
  ⟨fun _ _ => rfl, fun _ _ => rfl,
   fun _ _ => ⟨"mull secrets failed: ", rfl⟩, fun _ => rfl⟩

/-- C8 counterexample: the resolver succeeds with an empty-string
credential when `mull` exits zero printing only whitespace, refuting the
claim that it never succeeds with an empty key. -/
theorem resolver_empty_key_counterexample :
    resolve_api_key none (CmdOutcome.ran true "   " "") = Except.ok "" :=
  rfl

/-- C8 (amended): the resolver returns either a key string or a failure;
a successful key is the explicit key unchanged or the trimmed stdout of a
zero-exit `mull` run, with no non-emptiness check on either. -/
theorem resolver_success_source (key : Option String) (mull : CmdOutcome) (s : String)
    (h : resolve_api_key key mull = Except.ok s) :
    key = some s
    ∨ ∃ stdout stderr, mull = CmdOutcome.ran true stdout stderr ∧ s = rustTrim stdout := by
  cases key with
  | some k =>
    left
    simp only [resolve_api_key, Except.ok.injEq] at h
    rw [h]
  | none =>
    right
    cases mull with
    | launchFailure e => simp [resolve_api_key, api_key_from_mull] at h
    | ran success stdout stderr =>
      cases success with
      | true =>
        refine ⟨stdout, stderr, rfl, ?_⟩
        simp only [resolve_api_key, api_key_from_mull, if_true, Except.ok.injEq] at h
        rw [h]
      | false => simp [resolve_api_key, api_key_from_mull] at h

/-- C8 witness: the amended characterization applied at an explicit key. -/
theorem resolver_success_source_witness :
    resolve_api_key (some "k") (CmdOutcome.launchFailure "x") = Except.ok "k"
    ∧ ((some "k" : Option String) = some "k"
       ∨ ∃ stdout stderr, CmdOutcome.launchFailure "x" = CmdOutcome.ran true stdout stderr
           ∧ "k" = rustTrim stdout) :=
  ⟨rfl, resolver_success_source (some "k") (CmdOutcome.launchFailure "x") "k" rfl⟩

/-- C9 (code bug): the selector mapping itself is as claimed — total on
the exactly-two-value enum, with fixed, non-empty, distinct model ids, and
the intended default variant (the enum's `#[default]` and doc comment, and
the target of `default_value = "nano-banana-2"`) maps to
`gemini-3.1-flash-image-preview` — but heck's kebab-case puts no hyphen
before a digit, so the possible values clap derives are `nano-banana2` and
`nano-banana1`; the configured default string therefore parses to no
variant, and image mode without `--model` fails at argument parsing
instead of resolving to the newer variant. -/
theorem default_model_value_unparseable :
    (∀ m : ImageModel, m = ImageModel.nanoBanana2 ∨ m = ImageModel.nanoBanana1)
    ∧ ImageModel.api_name ImageModel.nanoBanana2 = "gemini-3.1-flash-image-preview"
    ∧ ImageModel.api_name ImageModel.nanoBanana1 = "gemini-2.0-flash-exp-image-generation"
    ∧ ImageModel.api_name ImageModel.nanoBanana2 ≠ ""
    ∧ ImageModel.api_name ImageModel.nanoBanana1 ≠ ""
    ∧ ImageModel.api_name ImageModel.nanoBanana2 ≠ ImageModel.api_name ImageModel.nanoBanana1
    ∧ ImageModel.possibleValue ImageModel.nanoBanana2 = "nano-banana2"
    ∧ ImageModel.possibleValue ImageModel.nanoBanana1 = "nano-banana1"
    ∧ ImageModel.fromStr "nano-banana2" = some ImageModel.nanoBanana2
    ∧ defaultModelSelection = none :=
  ⟨fun m => by cases m
               · exact Or.inl rfl
               · exact Or.inr rfl,
   rfl, rfl, by decide, by decide, by decide, by decide, by decide, by decide, by decide⟩

/-- C10: in image mode, when the first inline-data part (in candidate
order, then part order) holds invalid base64, the whole operation fails
with the decode error and no file is written — the scan never falls back
to later parts, whatever they carry. -/
theorem invalid_first_inline_fails (r : Response) (d : InlineData)
    (h1 : firstInlineData r = some d) (h2 : base64Decode d.data = none) :
    generate_image r = ImageOutcome.decodeFailed := by
  rw [generate_image_eq, h1]
  simp [decodeOutcome, h2]

/-- C10 witness: first inline part invalid, a later candidate valid; the
outcome is still the decode failure. -/
theorem invalid_first_inline_fails_witness :
    firstInlineData respBadThenGood = some badInline
    ∧ base64Decode badInline.data = none
    ∧ base64Decode pngInline.data = some [137, 80, 78, 71, 13, 10, 26, 10]
    ∧ generate_image respBadThenGood = ImageOutcome.decodeFailed :=
  ⟨by decide, by decide, by decide,
    invalid_first_inline_fails respBadThenGood badInline (by decide) (by decide)⟩

end NanoBanana
